import Mathlib

/-!
Shallow embedding of the order lifecycle and assignment core of the
quickbite backend (src/services/order_service.py, src/services/product_service.py,
src/database.py).

Conventions of the embedding:
* The PostgreSQL database is a value of type `DB`: one list of rows per table,
  together with the sequence counters that generate primary keys and a logical
  clock standing for `datetime.now()`.
* Monetary amounts (Python floats holding fixed-point currency values, per the
  data model) are embedded as rationals; quantities and ids as naturals.
* Each service function becomes a pure function `DB → args → DB × Except ServiceError r`.
  `get_db_cursor(commit=True)` commits the transaction when the body returns
  normally and rolls the connection back when an exception escapes the body, so
  in the embedding every error outcome carries the caller database unchanged.
* Order states are the string constants of order_service.py.
-/

namespace QuickBite

/-- Order-state constant from order_service.py. -/
def ESTADO_PEDIDO_PENDIENTE_CONFIRMACION : String := "pendiente_confirmacion"

/-- Order-state constant from order_service.py. -/
def ESTADO_PEDIDO_CONFIRMADO_POR_RESTAURANTE : String := "confirmado_por_restaurante"

/-- Order-state constant from order_service.py. -/
def ESTADO_PEDIDO_LISTO_PARA_RECOGER : String := "listo_para_recoger"

/-- Order-state constant from order_service.py. -/
def ESTADO_PEDIDO_RECOGIDO_POR_REPARTIDOR : String := "recogido_por_repartidor"

/-- Order-state constant from order_service.py. -/
def ESTADO_PEDIDO_EN_CAMINO : String := "en_camino"

/-- Order-state constant from order_service.py. -/
def ESTADO_PEDIDO_ENTREGADO : String := "entregado"

/-- Order-state constant from order_service.py. -/
def ESTADO_PEDIDO_CANCELADO : String := "cancelado"

/-- One row of tbl_producto, with the columns the order core reads
(id_producto, nombre_producto, precio_producto). -/
structure ProductoRow where
  id_producto : Nat
  nombre_producto : String
  precio_producto : ℚ
deriving DecidableEq

/-- One row of tbl_pedido, with the columns named by the INSERT and SELECT
statements of order_service.py. -/
structure PedidoRow where
  id_pedido : Nat
  id_cliente : Nat
  id_restaurante : Nat
  estado_pedido : String
  total_pedido : ℚ
  fecha_pedido : Nat
  id_repartidor : Option Nat
  metodo_pago : String
  direccion_entrega : String
deriving DecidableEq

/-- One row of tbl_detalles_venta.  Modelled from the spec: the DDL of the
table is not under src/.  create_order_with_items INSERTs exactly the columns
id_pedido, id_producto and cantidad_articulo, while the courier-side reads
(asignar_pedido_a_repartidor, update_estado_pedido_por_repartidor,
get_pedidos_asignados_a_repartidor, get_detalle_pedido_para_repartidor)
SELECT the further columns cantidad, precio_unitario and subtotal.  The
schema is therefore taken to carry both column sets, the latter three
nullable; the creation path never writes them, so in rows produced by the
core they hold NULL (`none`). -/
structure DetalleVentaRow where
  id_detalle_venta : Nat
  id_pedido : Nat
  id_producto : Nat
  cantidad_articulo : Nat
  cantidad : Option Nat
  precio_unitario : Option ℚ
  subtotal : Option ℚ
deriving DecidableEq

/-- The durable store: the three tables the order core touches, the id
sequences backing the generated keys, and a logical clock for
datetime.now(). -/
structure DB where
  tbl_producto : List ProductoRow
  tbl_pedido : List PedidoRow
  tbl_detalles_venta : List DetalleVentaRow
  next_id_pedido : Nat
  next_id_detalle_venta : Nat
  now : Nat
deriving DecidableEq

/-- Input line item as create_order_with_items reads it
(item.nombre_producto, item.cantidad, item.precio_unitario).  The class is
imported from models.order_model, which does not define it; the fields are
those the service accesses. -/
structure OrderItemCreate where
  nombre_producto : String
  cantidad : Nat
  precio_unitario : ℚ
deriving DecidableEq

/-- Input payload as create_order_with_items reads it (order_data.id_cliente,
id_restaurante, total_pedido, metodo_pago, direccion_entrega, items). -/
structure PedidoCreate where
  id_cliente : Nat
  id_restaurante : Nat
  total_pedido : ℚ
  metodo_pago : String
  direccion_entrega : String
  items : List OrderItemCreate
deriving DecidableEq

/-- Response line item.  OrderItem is imported from models.order_model, which
does not define it; the fields are the union of the two construction sites in
order_service.py: the creation and client-listing paths pass nombre_producto,
cantidad and precio_unitario, while the courier paths pass product_id,
quantity and price.  Fields a site does not pass are `none`. -/
structure OrderItem where
  id : Nat
  order_id : Nat
  nombre_producto : Option String
  product_id : Option Nat
  cantidad : Option Nat
  precio_unitario : Option ℚ
  quantity : Option Nat
  price : Option ℚ
deriving DecidableEq

/-- Response order object as order_service.py constructs it.  The courier
paths construct it without metodo_pago and direccion_entrega (their SELECTs do
not read those columns), so the two are optional here. -/
structure Pedido where
  id_pedido : Nat
  id_cliente : Nat
  id_restaurante : Nat
  estado_pedido : String
  total_pedido : ℚ
  fecha_pedido : Nat
  id_repartidor : Option Nat
  metodo_pago : Option String
  direccion_entrega : Option String
  items : List OrderItem
deriving DecidableEq

/-- The HTTPExceptions raised by the embedded service functions, one
constructor per raise site of the translated code paths. -/
inductive ServiceError where
  /-- 400: declared total does not match the computed item total. -/
  | totalMismatch
  /-- 404: a referenced product name is absent from tbl_producto. -/
  | productoNotFound (nombre : String)
  /-- 404: the order id is absent from tbl_pedido. -/
  | pedidoNotFound
  /-- 400 in asignar_pedido_a_repartidor: id_repartidor already equals the requester. -/
  | yaTienesEstePedido
  /-- 409 in asignar_pedido_a_repartidor: id_repartidor set to another courier. -/
  | asignadoAOtroRepartidor
  /-- 409 in asignar_pedido_a_repartidor: estado_pedido is not listo_para_recoger. -/
  | estadoNoListoParaRecoger
  /-- 400 in update_estado_pedido_por_repartidor: target state not allowed for couriers. -/
  | estadoNoPermitido
  /-- 403 in update_estado_pedido_por_repartidor: order not assigned to the requester. -/
  | sinPermiso
  /-- 404/500: an UPDATE ... RETURNING produced no row. -/
  | updateNoRow
deriving DecidableEq

/-- Python built-in abs, on the embedded numeric type. -/
def fabs (q : ℚ) : ℚ := if q < 0 then -q else q

/-- Boolean success test on a service result. -/
def resultOk {α : Type} : Except ServiceError α → Bool
  | .ok _ => true
  | .error _ => false

/-- SELECT ... FROM tbl_pedido WHERE id_pedido = %s (first row, if any). -/
def DB.findPedido (db : DB) (id_pedido : Nat) : Option PedidoRow :=
  db.tbl_pedido.find? (fun r => r.id_pedido == id_pedido)

/-- SELECT id_producto ... FROM tbl_producto WHERE nombre_producto = %s LIMIT 1. -/
def DB.findProductoByNombre (db : DB) (nombre : String) : Option ProductoRow :=
  db.tbl_producto.find? (fun p => p.nombre_producto == nombre)

/-- SELECT ... FROM tbl_detalles_venta WHERE id_pedido = %s. -/
def DB.detallesDePedido (db : DB) (id_pedido : Nat) : List DetalleVentaRow :=
  db.tbl_detalles_venta.filter (fun d => d.id_pedido == id_pedido)

/-- Current estado_pedido of an order, read through DB.findPedido. -/
def DB.estadoDe (db : DB) (id_pedido : Nat) : Option String :=
  (db.findPedido id_pedido).map (fun r => r.estado_pedido)

/-- Current id_repartidor of an order, read through DB.findPedido. -/
def DB.repartidorDe (db : DB) (id_pedido : Nat) : Option Nat :=
  (db.findPedido id_pedido).bind (fun r => r.id_repartidor)

/-- Item loop of create_order_with_items: for each input item, resolve the
product id by name (SELECT ... LIMIT 1; a miss raises 404) and INSERT INTO
tbl_detalles_venta (id_pedido, id_producto, cantidad_articulo) — the legacy
columns cantidad, precio_unitario and subtotal are not in the column list and
stay NULL.  The OrderItem appended to the response takes nombre_producto and
precio_unitario from the input and cantidad from the RETURNING row. -/
def insertItems (db : DB) (id_pedido_nuevo : Nat) :
    List OrderItemCreate → Except ServiceError (DB × List OrderItem)
  | [] => .ok (db, [])
  | item :: rest =>
    match db.findProductoByNombre item.nombre_producto with
    | none => .error (.productoNotFound item.nombre_producto)
    | some producto =>
      let fila : DetalleVentaRow :=
        { id_detalle_venta := db.next_id_detalle_venta
          id_pedido := id_pedido_nuevo
          id_producto := producto.id_producto
          cantidad_articulo := item.cantidad
          cantidad := none
          precio_unitario := none
          subtotal := none }
      let db' : DB :=
        { db with
          tbl_detalles_venta := db.tbl_detalles_venta ++ [fila]
          next_id_detalle_venta := db.next_id_detalle_venta + 1 }
      let oi : OrderItem :=
        { id := fila.id_detalle_venta
          order_id := fila.id_pedido
          nombre_producto := some item.nombre_producto
          product_id := none
          cantidad := some fila.cantidad_articulo
          precio_unitario := some item.precio_unitario
          quantity := none
          price := none }
      match insertItems db' id_pedido_nuevo rest with
      | .error e => .error e
      | .ok (db'', ois) => .ok (db'', oi :: ois)

/-- create_order_with_items: verify the declared total against the computed
item total (tolerance 0.01), INSERT the tbl_pedido header with
estado_pedido = pendiente_confirmacion and no id_repartidor, then insert the
items.  Runs under get_db_cursor(commit=True): an error rolls the transaction
back, so the database of an error outcome is the input database. -/
def create_order_with_items (db : DB) (order_data : PedidoCreate) :
    DB × Except ServiceError Pedido :=
  let calculated_total : ℚ :=
    (order_data.items.map (fun item => (item.cantidad : ℚ) * item.precio_unitario)).sum
  if 1/100 < fabs (calculated_total - order_data.total_pedido) then
    (db, .error .totalMismatch)
  else
    let fila : PedidoRow :=
      { id_pedido := db.next_id_pedido
        id_cliente := order_data.id_cliente
        id_restaurante := order_data.id_restaurante
        estado_pedido := ESTADO_PEDIDO_PENDIENTE_CONFIRMACION
        total_pedido := order_data.total_pedido
        fecha_pedido := db.now
        id_repartidor := none
        metodo_pago := order_data.metodo_pago
        direccion_entrega := order_data.direccion_entrega }
    let db1 : DB :=
      { db with
        tbl_pedido := db.tbl_pedido ++ [fila]
        next_id_pedido := db.next_id_pedido + 1
        now := db.now + 1 }
    match insertItems db1 fila.id_pedido order_data.items with
    | .error e => (db, .error e)
    | .ok (db2, order_items_created) =>
      (db2, .ok
        { id_pedido := fila.id_pedido
          id_cliente := fila.id_cliente
          id_restaurante := fila.id_restaurante
          estado_pedido := fila.estado_pedido
          total_pedido := fila.total_pedido
          fecha_pedido := fila.fecha_pedido
          id_repartidor := fila.id_repartidor
          metodo_pago := some fila.metodo_pago
          direccion_entrega := some fila.direccion_entrega
          items := order_items_created })

/-- INNER JOIN of one tbl_detalles_venta row with tbl_producto, as in
get_orders_by_client_id: a detalle whose product is missing is dropped by the
join; the response item takes cantidad from cantidad_articulo and
precio_unitario from the CURRENT tbl_producto.precio_producto. -/
def joinDetalleProducto (db : DB) (d : DetalleVentaRow) : Option OrderItem :=
  match db.tbl_producto.find? (fun p => p.id_producto == d.id_producto) with
  | none => none
  | some p => some
      { id := d.id_detalle_venta
        order_id := d.id_pedido
        nombre_producto := some p.nombre_producto
        product_id := none
        cantidad := some d.cantidad_articulo
        precio_unitario := some p.precio_producto
        quantity := none
        price := none }

/-- get_orders_by_client_id: all tbl_pedido rows of the client, ORDER BY
fecha_pedido DESC, each with its items joined against the current catalog. -/
def get_orders_by_client_id (db : DB) (client_id : Nat) : List Pedido :=
  let pedidos_db :=
    (db.tbl_pedido.filter (fun r => r.id_cliente == client_id)).insertionSort
      (fun a b => b.fecha_pedido ≤ a.fecha_pedido)
  pedidos_db.map (fun row =>
    { id_pedido := row.id_pedido
      id_cliente := row.id_cliente
      id_restaurante := row.id_restaurante
      estado_pedido := row.estado_pedido
      total_pedido := row.total_pedido
      fecha_pedido := row.fecha_pedido
      id_repartidor := row.id_repartidor
      metodo_pago := some row.metodo_pago
      direccion_entrega := some row.direccion_entrega
      items := (db.detallesDePedido row.id_pedido).filterMap (joinDetalleProducto db) })

/-- Pre-checks of asignar_pedido_a_repartidor, run on the row read by
SELECT id_repartidor, estado_pedido FROM tbl_pedido WHERE id_pedido = %s:
404 when the order is absent; when id_repartidor is already set, 400 if it is
the requester and 409 otherwise; 409 when the state is not
listo_para_recoger.  `none` means all checks passed. -/
def claimCheck (db : DB) (id_pedido id_repartidor : Nat) : Option ServiceError :=
  match db.findPedido id_pedido with
  | none => some .pedidoNotFound
  | some pedido_actual =>
    match pedido_actual.id_repartidor with
    | some r =>
      if r == id_repartidor then some .yaTienesEstePedido
      else some .asignadoAOtroRepartidor
    | none =>
      if pedido_actual.estado_pedido ≠ ESTADO_PEDIDO_LISTO_PARA_RECOGER then
        some .estadoNoListoParaRecoger
      else none

/-- The UPDATE of asignar_pedido_a_repartidor:
UPDATE tbl_pedido SET id_repartidor = %s, estado_pedido = recogido_por_repartidor
WHERE id_pedido = %s.  The WHERE clause names only the key: it is not guarded
by the expected state nor by id_repartidor IS NULL. -/
def claimWrite (db : DB) (id_pedido id_repartidor : Nat) : DB :=
  { db with
    tbl_pedido := db.tbl_pedido.map (fun r =>
      if r.id_pedido == id_pedido then
        { r with
          id_repartidor := some id_repartidor
          estado_pedido := ESTADO_PEDIDO_RECOGIDO_POR_REPARTIDOR }
      else r) }

/-- Response item as the courier paths build it: keyword arguments product_id,
quantity and price, reading the legacy columns cantidad and precio_unitario of
tbl_detalles_venta. -/
def detalleToCourierItem (d : DetalleVentaRow) : OrderItem :=
  { id := d.id_detalle_venta
    order_id := d.id_pedido
    nombre_producto := none
    product_id := some d.id_producto
    cantidad := none
    precio_unitario := none
    quantity := d.cantidad
    price := d.precio_unitario }

/-- asignar_pedido_a_repartidor: read the order, run the checks, then the
unguarded UPDATE, then re-read the row (RETURNING) and the detalle rows to
build the response.  Errors roll back, leaving the input database. -/
def asignar_pedido_a_repartidor (db : DB) (id_pedido id_repartidor : Nat) :
    DB × Except ServiceError Pedido :=
  match claimCheck db id_pedido id_repartidor with
  | some e => (db, .error e)
  | none =>
    let db' := claimWrite db id_pedido id_repartidor
    match db'.findPedido id_pedido with
    | none => (db, .error .updateNoRow)
    | some row =>
      (db', .ok
        { id_pedido := row.id_pedido
          id_cliente := row.id_cliente
          id_restaurante := row.id_restaurante
          estado_pedido := row.estado_pedido
          total_pedido := row.total_pedido
          fecha_pedido := row.fecha_pedido
          id_repartidor := row.id_repartidor
          metodo_pago := none
          direccion_entrega := none
          items := (db'.detallesDePedido id_pedido).map detalleToCourierItem })

/-- Target states a courier may set, from update_estado_pedido_por_repartidor. -/
def estados_permitidos_repartidor : List String :=
  [ESTADO_PEDIDO_EN_CAMINO, ESTADO_PEDIDO_ENTREGADO]

/-- update_estado_pedido_por_repartidor: reject a target outside
estados_permitidos_repartidor (before any read), then read the order (404 if
absent), reject a requester who is not the assigned courier (403), then
UPDATE tbl_pedido SET estado_pedido = %s WHERE id_pedido = %s AND
id_repartidor = %s and re-read the updated row and the detalle rows.  The
current state of the order is never consulted.  Errors roll back. -/
def update_estado_pedido_por_repartidor (db : DB)
    (id_pedido id_repartidor_actual : Nat) (nuevo_estado : String) :
    DB × Except ServiceError Pedido :=
  if nuevo_estado ∉ estados_permitidos_repartidor then
    (db, .error .estadoNoPermitido)
  else
    match db.findPedido id_pedido with
    | none => (db, .error .pedidoNotFound)
    | some pedido_actual =>
      if pedido_actual.id_repartidor ≠ some id_repartidor_actual then
        (db, .error .sinPermiso)
      else
        let db' : DB :=
          { db with
            tbl_pedido := db.tbl_pedido.map (fun r =>
              if r.id_pedido == id_pedido && r.id_repartidor == some id_repartidor_actual
              then { r with estado_pedido := nuevo_estado }
              else r) }
        match db'.tbl_pedido.find? (fun r =>
            r.id_pedido == id_pedido && r.id_repartidor == some id_repartidor_actual) with
        | none => (db, .error .updateNoRow)
        | some row =>
          (db', .ok
            { id_pedido := row.id_pedido
              id_cliente := row.id_cliente
              id_restaurante := row.id_restaurante
              estado_pedido := row.estado_pedido
              total_pedido := row.total_pedido
              fecha_pedido := row.fecha_pedido
              id_repartidor := row.id_repartidor
              metodo_pago := none
              direccion_entrega := none
              items := (db'.detallesDePedido id_pedido).map detalleToCourierItem })

/-- update_product of product_service.py restricted to a payload that sets
only precio_producto: UPDATE tbl_producto SET precio_producto = %s
WHERE id_producto = %s. -/
def update_product_precio (db : DB) (product_id : Nat) (nuevo_precio : ℚ) : DB :=
  { db with
    tbl_producto := db.tbl_producto.map (fun p =>
      if p.id_producto == product_id then { p with precio_producto := nuevo_precio }
      else p) }

/-- Modelled from the spec: the restaurant-side transitions of the lifecycle
graph (pending_confirmation to confirmed_by_restaurant to ready_for_pickup)
have no endpoint under src/; per section 4.2 they are plain Order Store state
updates.  This raw store update sets estado_pedido of the given order and
changes nothing else. -/
def setEstadoPedido (db : DB) (id_pedido : Nat) (estado : String) : DB :=
  { db with
    tbl_pedido := db.tbl_pedido.map (fun r =>
      if r.id_pedido == id_pedido then { r with estado_pedido := estado } else r) }

/-- The mutating operations of the order core, for stating lifecycle
invariants over arbitrary operation sequences. -/
inductive Op where
  | createOrder (order_data : PedidoCreate)
  | claim (id_pedido id_repartidor : Nat)
  | updateEstado (id_pedido id_repartidor : Nat) (nuevo_estado : String)

/-- Database reached after one operation (the error outcomes keep the
database unchanged, as each service function rolls back on error). -/
def applyOp (db : DB) : Op → DB
  | .createOrder od => (create_order_with_items db od).1
  | .claim p r => (asignar_pedido_a_repartidor db p r).1
  | .updateEstado p r s => (update_estado_pedido_por_repartidor db p r s).1

/-- Database reached after a sequence of operations. -/
def runOps (db : DB) : List Op → DB
  | [] => db
  | op :: rest => runOps (applyOp db op) rest

/-- Generated-key discipline of the store: every persisted order id, and every
order id referenced by a detalle row, is below the pedido sequence value, and
every detalle id is below the detalle sequence value. -/
def DB.WF (db : DB) : Prop :=
  (∀ r ∈ db.tbl_pedido, r.id_pedido < db.next_id_pedido) ∧
  (∀ d ∈ db.tbl_detalles_venta, d.id_pedido < db.next_id_pedido) ∧
  (∀ d ∈ db.tbl_detalles_venta, d.id_detalle_venta < db.next_id_detalle_venta)

end QuickBite

deriving instance DecidableEq for Except

namespace QuickBite

/-- Store holding a single order in listo_para_recoger with no courier
assigned: the situation from which a claim race starts. -/
def raceDb : DB :=
  ⟨[], [⟨1, 1, 1, ESTADO_PEDIDO_LISTO_PARA_RECOGER, 10, 0, none, "efectivo", "calle 1"⟩],
    [], 2, 1, 3⟩

/-- The single tbl_pedido row of raceDb. -/
def raceRow : PedidoRow :=
  ⟨1, 1, 1, ESTADO_PEDIDO_LISTO_PARA_RECOGER, 10, 0, none, "efectivo", "calle 1"⟩

/-- Catalog holding one product, Pizza (id 1) at 10.00, with no orders yet. -/
def pizzaDb : DB := ⟨[⟨1, "Pizza", 10⟩], [], [], 1, 1, 0⟩

/-- Valid creation input: 1 x Pizza at 10.00, declared total 10.00. -/
def pizzaOrder : PedidoCreate := ⟨1, 1, 10, "efectivo", "calle 1", [⟨"Pizza", 1, 10⟩]⟩

/-- Creation input whose items sum to 20.00 against a declared total of
25.00 (the mismatch scenario of the spec). -/
def mismatchOrder : PedidoCreate := ⟨1, 1, 25, "efectivo", "calle 1", [⟨"Pizza", 2, 10⟩]⟩

/-- Valid creation input: 2 x Pizza at 10.00, declared total 20.00. -/
def doubleOrder : PedidoCreate := ⟨1, 1, 20, "tarjeta", "calle 2", [⟨"Pizza", 2, 10⟩]⟩

/-- Store holding a single delivered order assigned to courier 7. -/
def deliveredDb : DB :=
  ⟨[], [⟨1, 1, 1, ESTADO_PEDIDO_ENTREGADO, 10, 0, some 7, "efectivo", "calle 1"⟩],
    [], 2, 1, 3⟩

/-- The single tbl_pedido row of deliveredDb. -/
def deliveredRow : PedidoRow :=
  ⟨1, 1, 1, ESTADO_PEDIDO_ENTREGADO, 10, 0, some 7, "efectivo", "calle 1"⟩

/-- Store holding a single claimed order (recogido_por_repartidor) assigned
to courier 7. -/
def claimedDb : DB :=
  ⟨[], [⟨1, 1, 1, ESTADO_PEDIDO_RECOGIDO_POR_REPARTIDOR, 10, 0, some 7, "efectivo", "calle 1"⟩],
    [], 2, 1, 3⟩

/-- The single tbl_pedido row of claimedDb. -/
def claimedRow : PedidoRow :=
  ⟨1, 1, 1, ESTADO_PEDIDO_RECOGIDO_POR_REPARTIDOR, 10, 0, some 7, "efectivo", "calle 1"⟩

/-- claimedDb after courier 7 sets the state to en_camino. -/
def enCaminoDb : DB :=
  ⟨[], [⟨1, 1, 1, ESTADO_PEDIDO_EN_CAMINO, 10, 0, some 7, "efectivo", "calle 1"⟩],
    [], 2, 1, 3⟩

/-- Response object returned by that state update. -/
def enCaminoPedido : Pedido :=
  ⟨1, 1, 1, ESTADO_PEDIDO_EN_CAMINO, 10, 0, some 7, none, none, []⟩

/-- raceRow after courier 7 claims it. -/
def claimedRaceRow : PedidoRow :=
  ⟨1, 1, 1, ESTADO_PEDIDO_RECOGIDO_POR_REPARTIDOR, 10, 0, some 7, "efectivo", "calle 1"⟩

end QuickBite

namespace QuickBite

/-- Python abs agrees with the mathematical absolute value on the embedded
numeric type. -/
theorem fabs_eq_abs (q : ℚ) : fabs q = |q| := by
  by_cases h : q < 0
  · simp [fabs, h, abs_of_neg h]
  · simp [fabs, h, abs_of_nonneg (not_lt.mp h)]

/-- find? over an appended list, when the prefix has no hit. -/
theorem find?_append_of_none {α : Type} {p : α → Bool} {l₁ l₂ : List α}
    (h : l₁.find? p = none) : (l₁ ++ l₂).find? p = l₂.find? p := by
  simp [List.find?_append, h]

/-- find? over an appended list, when the prefix already hits. -/
theorem find?_append_of_some {α : Type} {p : α → Bool} {l₁ l₂ : List α} {a : α}
    (h : l₁.find? p = some a) : (l₁ ++ l₂).find? p = some a := by
  simp [List.find?_append, h]

/-- find? commutes with a map that does not change the tested predicate. -/
theorem find?_map_invariant {α : Type} (l : List α) (f : α → α) (p : α → Bool)
    (hf : ∀ a, p (f a) = p a) :
    (l.map f).find? p = (l.find? p).map f := by
  rw [List.find?_map]
  have hpf : p ∘ f = p := funext hf
  rw [hpf]

/-- Strengthening the find? predicate by a conjunct the found element
satisfies does not change the result. -/
theorem find?_and_of_find? {α : Type} {l : List α} {p s : α → Bool} {a : α}
    (h : l.find? p = some a) (hs : s a = true) :
    l.find? (fun x => p x && s x) = some a := by
  induction l with
  | nil => simp at h
  | cons b l ih =>
    by_cases hb : p b = true
    · rw [List.find?_cons_of_pos _ hb] at h
      injection h with h
      subst h
      exact List.find?_cons_of_pos _ (by simp [hb, hs])
    · rw [List.find?_cons_of_neg _ hb] at h
      rw [List.find?_cons_of_neg _ (by simp [hb])]
      exact ih h

end QuickBite

namespace QuickBite

/-- Full characterization of a successful run of the item loop of
create_order_with_items: the other tables and counters are untouched, every
referenced product resolves, the new detalle rows carry the resolved product
id and the quantity as cantidad_articulo with the legacy columns NULL, and
the response items echo name, quantity and unit price from the input. -/
theorem insertItems_ok_spec (items : List OrderItemCreate) :
    ∀ (db : DB) (idp : Nat) (db' : DB) (ois : List OrderItem),
      insertItems db idp items = .ok (db', ois) →
      db'.tbl_producto = db.tbl_producto ∧
      db'.tbl_pedido = db.tbl_pedido ∧
      db'.next_id_pedido = db.next_id_pedido ∧
      db'.now = db.now ∧
      (∀ i ∈ items, (db.findProductoByNombre i.nombre_producto).isSome) ∧
      (∃ nuevos : List DetalleVentaRow,
        db'.tbl_detalles_venta = db.tbl_detalles_venta ++ nuevos ∧
        (∀ d ∈ nuevos, d.id_pedido = idp ∧ d.cantidad = none ∧ d.precio_unitario = none) ∧
        nuevos.map (fun d => (some d.id_producto, d.cantidad_articulo)) =
          items.map (fun i =>
            ((db.findProductoByNombre i.nombre_producto).map ProductoRow.id_producto,
              i.cantidad))) ∧
      ois.map (fun oi => (oi.nombre_producto, oi.cantidad, oi.precio_unitario)) =
        items.map (fun i => (some i.nombre_producto, some i.cantidad, some i.precio_unitario)) := by
  induction items with
  | nil =>
    intro db idp db' ois h
    simp only [insertItems] at h
    injection h with h
    injection h with h1 h2
    subst h1; subst h2
    exact ⟨rfl, rfl, rfl, rfl, by simp, ⟨[], by simp, by simp, by simp⟩, by simp⟩
  | cons item rest ih =>
    intro db idp db' ois h
    simp only [insertItems] at h
    split at h
    · exact absurd h (by simp)
    next producto hf =>
      split at h
      · exact absurd h (by simp)
      next dbr oisr hr =>
        injection h with h
        injection h with h1 h2
        subst h1; subst h2
        obtain ⟨q1, q2, q3, q4, q5, ⟨nuevos, n1, n2, n3⟩, q6⟩ := ih _ idp dbr oisr hr
        refine ⟨q1, q2, q3, q4, ?_, ⟨⟨db.next_id_detalle_venta, idp, producto.id_producto,
          item.cantidad, none, none, none⟩ :: nuevos, ?_, ?_, ?_⟩, ?_⟩
        · intro i hi
          rcases hi with _ | hi
          · simp [hf]
          · exact q5 i (by assumption)
        · rw [n1]; simp
        · intro d hd
          rcases hd with _ | hd
          · exact ⟨rfl, rfl, rfl⟩
          · exact n2 d (by assumption)
        · simp only [List.map_cons]
          rw [hf]
          exact congrArg _ n3
        · simp only [List.map_cons]
          rw [q6]

/-- The item loop succeeds whenever every referenced product resolves. -/
theorem insertItems_ok_of_found (items : List OrderItemCreate) :
    ∀ (db : DB) (idp : Nat),
      (∀ i ∈ items, (db.findProductoByNombre i.nombre_producto).isSome) →
      ∃ db' ois, insertItems db idp items = .ok (db', ois) := by
  induction items with
  | nil => intro db idp _; exact ⟨db, [], rfl⟩
  | cons item rest ih =>
    intro db idp hall
    obtain ⟨producto, hf⟩ := Option.isSome_iff_exists.mp (hall item (by simp))
    obtain ⟨db', ois, hr⟩ := ih
      { db with
        tbl_detalles_venta := db.tbl_detalles_venta ++
          [⟨db.next_id_detalle_venta, idp, producto.id_producto, item.cantidad, none, none, none⟩]
        next_id_detalle_venta := db.next_id_detalle_venta + 1 }
      idp (fun i hi => hall i (List.mem_cons_of_mem _ hi))
    refine ⟨db', ⟨db.next_id_detalle_venta, idp, some item.nombre_producto, none,
      some item.cantidad, some item.precio_unitario, none, none⟩ :: ois, ?_⟩
    simp only [insertItems, hf, hr]

/-- Characterization of a successful create_order_with_items run on a
well-formed store: the header row is persisted in pendiente_confirmacion with
no courier, the detalle rows carry product id and quantity with the legacy
price columns NULL, and the response echoes the input items. -/
theorem create_order_ok_spec (db : DB) (od : PedidoCreate)
    (hwf : db.WF)
    (htot : fabs ((od.items.map fun i => (i.cantidad : ℚ) * i.precio_unitario).sum
      - od.total_pedido) ≤ 1/100)
    (hprod : ∀ i ∈ od.items, (db.findProductoByNombre i.nombre_producto).isSome) :
    ∃ db' p, create_order_with_items db od = (db', .ok p) ∧
      p.id_pedido = db.next_id_pedido ∧
      p.estado_pedido = ESTADO_PEDIDO_PENDIENTE_CONFIRMACION ∧
      p.id_repartidor = none ∧
      p.items.map (fun oi => (oi.nombre_producto, oi.cantidad, oi.precio_unitario)) =
        od.items.map (fun i => (some i.nombre_producto, some i.cantidad, some i.precio_unitario)) ∧
      db'.tbl_producto = db.tbl_producto ∧
      db'.findPedido db.next_id_pedido = some ⟨db.next_id_pedido, od.id_cliente,
        od.id_restaurante, ESTADO_PEDIDO_PENDIENTE_CONFIRMACION, od.total_pedido, db.now,
        none, od.metodo_pago, od.direccion_entrega⟩ ∧
      (∃ nuevos : List DetalleVentaRow,
        db'.tbl_detalles_venta = db.tbl_detalles_venta ++ nuevos ∧
        db'.detallesDePedido db.next_id_pedido = nuevos ∧
        (∀ d ∈ nuevos, d.cantidad = none ∧ d.precio_unitario = none) ∧
        nuevos.map (fun d => (some d.id_producto, d.cantidad_articulo)) =
          od.items.map (fun i =>
            ((db.findProductoByNombre i.nombre_producto).map ProductoRow.id_producto,
              i.cantidad))) := by
  have hnotlt : ¬ (1/100 < fabs ((od.items.map fun i =>
      (i.cantidad : ℚ) * i.precio_unitario).sum - od.total_pedido)) := not_lt.mpr htot
  obtain ⟨db2, ois, hr⟩ := insertItems_ok_of_found od.items
    { db with
      tbl_pedido := db.tbl_pedido ++
        [⟨db.next_id_pedido, od.id_cliente, od.id_restaurante,
          ESTADO_PEDIDO_PENDIENTE_CONFIRMACION, od.total_pedido, db.now, none,
          od.metodo_pago, od.direccion_entrega⟩]
      next_id_pedido := db.next_id_pedido + 1
      now := db.now + 1 }
    db.next_id_pedido hprod
  obtain ⟨q1, q2, q3, q4, q5, ⟨nuevos, n1, n2, n3⟩, q6⟩ :=
    insertItems_ok_spec od.items _ db.next_id_pedido db2 ois hr
  have hcreate : create_order_with_items db od = (db2, .ok
      ⟨db.next_id_pedido, od.id_cliente, od.id_restaurante,
        ESTADO_PEDIDO_PENDIENTE_CONFIRMACION, od.total_pedido, db.now, none,
        some od.metodo_pago, some od.direccion_entrega, ois⟩) := by
    simp only [create_order_with_items, hnotlt, if_false]
    rw [hr]
  refine ⟨db2, _, hcreate, rfl, rfl, rfl, q6, q1, ?_, ⟨nuevos, n1, ?_, ?_, n3⟩⟩
  · show db2.tbl_pedido.find? (fun r => r.id_pedido == db.next_id_pedido) = _
    rw [q2]
    rw [find?_append_of_none ?hpre]
    case hpre =>
      rw [List.find?_eq_none]
      intro r hrmem
      simpa using Nat.ne_of_lt (hwf.1 r hrmem)
    exact List.find?_cons_of_pos _ (by simp)
  · show (db2.tbl_detalles_venta.filter (fun d => d.id_pedido == db.next_id_pedido)) = nuevos
    rw [n1, List.filter_append]
    have hold : db.tbl_detalles_venta.filter (fun d => d.id_pedido == db.next_id_pedido) = [] := by
      rw [List.filter_eq_nil_iff]
      intro d hdmem
      simpa using Nat.ne_of_lt (hwf.2.1 d hdmem)
    have hnew : nuevos.filter (fun d => d.id_pedido == db.next_id_pedido) = nuevos := by
      rw [List.filter_eq_self]
      intro d hdmem
      simpa using (n2 d hdmem).1
    rw [hold, hnew, List.nil_append]
  · intro d hd
    exact ⟨(n2 d hd).2.1, (n2 d hd).2.2⟩

end QuickBite

namespace QuickBite

/-- Reading an order back after the raw restaurant-side state update. -/
theorem setEstadoPedido_findPedido (db : DB) (idp : Nat) (estado : String) (row : PedidoRow)
    (hrow : db.findPedido idp = some row) :
    (setEstadoPedido db idp estado).findPedido idp =
      some { row with estado_pedido := estado } := by
  have hid : row.id_pedido = idp := by simpa using List.find?_some hrow
  show (db.tbl_pedido.map _).find? _ = _
  rw [find?_map_invariant _ _ _ (fun a => by by_cases h : a.id_pedido = idp <;> simp [h])]
  rw [show db.tbl_pedido.find? (fun r => r.id_pedido == idp) = some row from hrow]
  simp [hid]

/-- A claim on an existing, unassigned, listo_para_recoger order succeeds:
the store row gets the courier and the recogido_por_repartidor state, and the
response is built from the updated row and the detalle rows. -/
theorem asignar_ok_spec (db : DB) (idp c : Nat) (row : PedidoRow)
    (hrow : db.findPedido idp = some row)
    (hnone : row.id_repartidor = none)
    (hst : row.estado_pedido = ESTADO_PEDIDO_LISTO_PARA_RECOGER) :
    asignar_pedido_a_repartidor db idp c =
      (claimWrite db idp c, .ok
        ⟨row.id_pedido, row.id_cliente, row.id_restaurante,
          ESTADO_PEDIDO_RECOGIDO_POR_REPARTIDOR, row.total_pedido, row.fecha_pedido,
          some c, none, none,
          (db.detallesDePedido idp).map detalleToCourierItem⟩) ∧
    (claimWrite db idp c).findPedido idp =
      some { row with id_repartidor := some c, estado_pedido := ESTADO_PEDIDO_RECOGIDO_POR_REPARTIDOR } := by
  have hid : row.id_pedido = idp := by simpa using List.find?_some hrow
  have hcheck : claimCheck db idp c = none := by
    simp [claimCheck, hrow, hnone, hst]
  have hfind : (claimWrite db idp c).findPedido idp =
      some { row with id_repartidor := some c, estado_pedido := ESTADO_PEDIDO_RECOGIDO_POR_REPARTIDOR } := by
    show (db.tbl_pedido.map _).find? _ = _
    rw [find?_map_invariant _ _ _ (fun a => by by_cases h : a.id_pedido = idp <;> simp [h])]
    rw [show db.tbl_pedido.find? (fun r => r.id_pedido == idp) = some row from hrow]
    simp [hid]
  refine ⟨?_, hfind⟩
  simp only [asignar_pedido_a_repartidor, hcheck, hfind]
  rfl

/-- A courier state update on an existing order assigned to that courier,
with an allowed target, succeeds: only estado_pedido changes in the store and
the response is built from the updated row and the detalle rows. -/
theorem update_ok_spec (db : DB) (idp c : Nat) (t : String) (row : PedidoRow)
    (ht : t ∈ estados_permitidos_repartidor)
    (hrow : db.findPedido idp = some row)
    (hown : row.id_repartidor = some c) :
    update_estado_pedido_por_repartidor db idp c t =
      ({ db with tbl_pedido := db.tbl_pedido.map (fun r =>
          if r.id_pedido == idp && r.id_repartidor == some c
          then { r with estado_pedido := t } else r) }, .ok
        ⟨row.id_pedido, row.id_cliente, row.id_restaurante, t, row.total_pedido,
          row.fecha_pedido, some c, none, none,
          (db.detallesDePedido idp).map detalleToCourierItem⟩) ∧
    (update_estado_pedido_por_repartidor db idp c t).1.findPedido idp =
      some { row with estado_pedido := t } := by
  have hid : row.id_pedido = idp := by simpa using List.find?_some hrow
  have hstrong : db.tbl_pedido.find? (fun r =>
      r.id_pedido == idp && r.id_repartidor == some c) = some row :=
    find?_and_of_find? hrow (by simp [hown])
  have hmapped : (db.tbl_pedido.map (fun r =>
      if r.id_pedido == idp && r.id_repartidor == some c
      then { r with estado_pedido := t } else r)).find? (fun r =>
        r.id_pedido == idp && r.id_repartidor == some c) =
      some { row with estado_pedido := t } := by
    rw [find?_map_invariant _ _ _
      (fun a => by
        by_cases h1 : a.id_pedido = idp <;> by_cases h2 : a.id_repartidor = some c <;>
          simp [h1, h2])]
    rw [hstrong]
    simp [hid, hown]
  have heq : update_estado_pedido_por_repartidor db idp c t =
      ({ db with tbl_pedido := db.tbl_pedido.map (fun r =>
          if r.id_pedido == idp && r.id_repartidor == some c
          then { r with estado_pedido := t } else r) }, .ok
        ⟨row.id_pedido, row.id_cliente, row.id_restaurante, t, row.total_pedido,
          row.fecha_pedido, some c, none, none,
          (db.detallesDePedido idp).map detalleToCourierItem⟩) := by
    simp only [update_estado_pedido_por_repartidor,
      if_neg (not_not_intro ht), hrow, if_neg (not_not_intro hown), hmapped]
    rw [hown]
    rfl
  refine ⟨heq, ?_⟩
  rw [heq]
  show (db.tbl_pedido.map _).find? _ = _
  rw [find?_map_invariant _ _ _
    (fun a => by
      by_cases h1 : a.id_pedido = idp <;> by_cases h2 : a.id_repartidor = some c <;>
        simp [h1, h2])]
  rw [show db.tbl_pedido.find? (fun r => r.id_pedido == idp) = some row from hrow]
  simp [hid, hown]

end QuickBite

namespace QuickBite

/-- Claim C1: the spec asserts that two concurrent claims on a
ready_for_pickup order with no courier produce exactly one success and one
AlreadyClaimed, relying on a compare-and-swap guarded by the expected state
and a NULL courier.  The code instead reads the row, checks it, and then runs
an UPDATE guarded only by the primary key.  In the interleaving where both
couriers pass the pre-checks before either UPDATE commits, both requests
succeed: courier 7 completes its whole call successfully, courier 8 passes
the same pre-checks on the still-unclaimed row, and after both writes land
the order is assigned to courier 8 — the later write silently overwrites the
earlier claim instead of failing. -/
theorem C1_claim_race_not_atomic :
    resultOk (asignar_pedido_a_repartidor raceDb 1 7).2 = true ∧
    claimCheck raceDb 1 8 = none ∧
    ((claimWrite (asignar_pedido_a_repartidor raceDb 1 7).1 1 8).findPedido 1).isSome = true ∧
    (claimWrite (asignar_pedido_a_repartidor raceDb 1 7).1 1 8).repartidorDe 1 = some 8 ∧
    (claimWrite (asignar_pedido_a_repartidor raceDb 1 7).1 1 8).estadoDe 1
      = some ESTADO_PEDIDO_RECOGIDO_POR_REPARTIDOR := by
  decide

/-- Claim C5 counterexample: a transition request on a delivered order does
not always fail — the assigned courier can move a delivered order back to
en_camino, because the code checks only the target set and ownership, never
the current state. -/
theorem C5_counterexample_delivered_moves_back :
    deliveredDb.estadoDe 1 = some ESTADO_PEDIDO_ENTREGADO ∧
    resultOk (update_estado_pedido_por_repartidor deliveredDb 1 7 ESTADO_PEDIDO_EN_CAMINO).2
      = true ∧
    (update_estado_pedido_por_repartidor deliveredDb 1 7 ESTADO_PEDIDO_EN_CAMINO).1.estadoDe 1
      = some ESTADO_PEDIDO_EN_CAMINO := by
  decide

/-- Claim C6 counterexample: a successful operation can move an order
backward along the lifecycle graph — the assigned courier moves a delivered
order back to en_camino. -/
theorem C6_counterexample_backward_step :
    deliveredDb.estadoDe 1 = some ESTADO_PEDIDO_ENTREGADO ∧
    (applyOp deliveredDb (.updateEstado 1 7 ESTADO_PEDIDO_EN_CAMINO)).estadoDe 1
      = some ESTADO_PEDIDO_EN_CAMINO := by
  decide

/-- Claim C8 counterexample: a courier (id 9) who is not the assigned courier
(id 7) and requests the target cancelado receives the invalid-target error,
not NotOwner — the target-set check runs before the ownership check. -/
theorem C8_counterexample_invalid_target_first :
    deliveredDb.repartidorDe 1 = some 7 ∧
    update_estado_pedido_por_repartidor deliveredDb 1 9 ESTADO_PEDIDO_CANCELADO
      = (deliveredDb, .error .estadoNoPermitido) := by
  decide

/-- Claim C2: create_order_with_items rejects a declared total more than 0.01
away from the computed item total with the validation error, fails whenever a
referenced product is unknown, and in every failure case returns the caller
database unchanged (the transaction rolls back, so neither the header nor any
line item is persisted). -/
theorem C2_createOrder_failure_is_atomic (db : DB) (od : PedidoCreate) :
    (1/100 < fabs ((od.items.map fun i => (i.cantidad : ℚ) * i.precio_unitario).sum
        - od.total_pedido) →
      create_order_with_items db od = (db, .error .totalMismatch)) ∧
    ((∃ i ∈ od.items, db.findProductoByNombre i.nombre_producto = none) →
      resultOk (create_order_with_items db od).2 = false) ∧
    (∀ e, (create_order_with_items db od).2 = .error e →
      (create_order_with_items db od).1 = db) := by
  refine ⟨?_, ?_, ?_⟩
  · intro h
    simp only [create_order_with_items, if_pos h]
  · rintro ⟨i, hi, hmiss⟩
    simp only [create_order_with_items]
    split
    · rfl
    · split
      · rfl
      next dbr oisr hr =>
        have q5 := (insertItems_ok_spec od.items _ _ _ _ hr).2.2.2.2.1
        have h2 : (db.findProductoByNombre i.nombre_producto).isSome = true := q5 i hi
        rw [hmiss] at h2
        simp at h2
  · intro e
    simp only [create_order_with_items]
    split
    · intro _; rfl
    · split
      · intro _; rfl
      · intro he
        exact absurd he (by simp)

/-- Claim C7: the failure modes of the claim operation, in the order the code
checks them — absent order: NotFound; courier already set to the requester:
the distinguishing already-assigned-to-you error; courier set to someone
else: the assigned-to-another error; no courier but state other than
listo_para_recoger: the wrong-state error.  Every failure leaves the store
unchanged. -/
theorem C7_claim_failure_modes (db : DB) (idp c : Nat) :
    (db.findPedido idp = none →
      asignar_pedido_a_repartidor db idp c = (db, .error .pedidoNotFound)) ∧
    (∀ row, db.findPedido idp = some row →
      (row.id_repartidor = some c →
        asignar_pedido_a_repartidor db idp c = (db, .error .yaTienesEstePedido)) ∧
      (∀ c2, row.id_repartidor = some c2 → c2 ≠ c →
        asignar_pedido_a_repartidor db idp c = (db, .error .asignadoAOtroRepartidor)) ∧
      (row.id_repartidor = none → row.estado_pedido ≠ ESTADO_PEDIDO_LISTO_PARA_RECOGER →
        asignar_pedido_a_repartidor db idp c = (db, .error .estadoNoListoParaRecoger))) := by
  constructor
  · intro h
    simp [asignar_pedido_a_repartidor, claimCheck, h]
  · intro row hrow
    refine ⟨?_, ?_, ?_⟩
    · intro hmine
      simp [asignar_pedido_a_repartidor, claimCheck, hrow, hmine]
    · intro c2 hc2 hne
      simp [asignar_pedido_a_repartidor, claimCheck, hrow, hc2, hne]
    · intro hnone hst
      simp [asignar_pedido_a_repartidor, claimCheck, hrow, hnone, hst]

end QuickBite

namespace QuickBite

/-- Claim C10: a successful courier state update changes only the
estado_pedido column of the targeted order: the catalog, the line items, the
key sequences and the clock are untouched; every non-state column of every
order row is untouched; every order row with a different id is untouched
entirely; and the targeted order now carries the requested state. -/
theorem C10_update_estado_frame (db : DB) (idp c : Nat) (t : String)
    (db' : DB) (q : Pedido)
    (h : update_estado_pedido_por_repartidor db idp c t = (db', .ok q)) :
    db'.tbl_producto = db.tbl_producto ∧
    db'.tbl_detalles_venta = db.tbl_detalles_venta ∧
    db'.next_id_pedido = db.next_id_pedido ∧
    db'.next_id_detalle_venta = db.next_id_detalle_venta ∧
    db'.now = db.now ∧
    db'.tbl_pedido.map (fun r => (r.id_pedido, r.id_cliente, r.id_restaurante,
        r.total_pedido, r.fecha_pedido, r.id_repartidor, r.metodo_pago, r.direccion_entrega))
      = db.tbl_pedido.map (fun r => (r.id_pedido, r.id_cliente, r.id_restaurante,
        r.total_pedido, r.fecha_pedido, r.id_repartidor, r.metodo_pago, r.direccion_entrega)) ∧
    (∀ r ∈ db.tbl_pedido, r.id_pedido ≠ idp → r ∈ db'.tbl_pedido) ∧
    db'.estadoDe idp = some t := by
  simp only [update_estado_pedido_por_repartidor] at h
  split at h
  · exact absurd h (by simp)
  split at h
  · exact absurd h (by simp)
  next pedido_actual hpa =>
  split at h
  · exact absurd h (by simp)
  next hownNe =>
  have hown : pedido_actual.id_repartidor = some c := not_not.mp hownNe
  split at h
  · exact absurd h (by simp)
  next row2 hrow2 =>
  have hdb : db' = { db with tbl_pedido := db.tbl_pedido.map (fun r =>
      if r.id_pedido == idp && r.id_repartidor == some c
      then { r with estado_pedido := t } else r) } := by
    have := congrArg Prod.fst h
    exact this.symm
  subst hdb
  have hidpa : pedido_actual.id_pedido = idp := by simpa using List.find?_some hpa
  refine ⟨rfl, rfl, rfl, rfl, rfl, ?_, ?_, ?_⟩
  · rw [List.map_map]
    refine List.map_congr_left ?_
    intro r _
    by_cases h1 : r.id_pedido = idp <;> by_cases h2 : r.id_repartidor = some c <;>
      simp [h1, h2]
  · intro r hr hne
    have : (if (r.id_pedido == idp && r.id_repartidor == some c) = true
        then { r with estado_pedido := t } else r) = r := by
      simp [hne]
    exact this ▸ List.mem_map_of_mem _ hr
  · show ((db.tbl_pedido.map _).find? _).map _ = _
    rw [find?_map_invariant _ _ _
      (fun a => by
        by_cases h1 : a.id_pedido = idp <;> by_cases h2 : a.id_repartidor = some c <;>
          simp [h1, h2])]
    rw [show db.tbl_pedido.find? (fun r => r.id_pedido == idp) = some pedido_actual from hpa]
    simp [hidpa, hown]

/-- Claim C4: the unit price of a line item is not captured at
order-creation time.  A client creates an order containing 1 x Pizza at
10.00; the catalog price of Pizza is then updated to 12.00; a subsequent
listing of the client orders reports the line item at 12.00, the current
catalog price, because get_orders_by_client_id joins tbl_detalles_venta with
tbl_producto and reads precio_producto, and creation never persisted the
10.00. -/
theorem C4_price_follows_catalog :
    resultOk (create_order_with_items pizzaDb pizzaOrder).2 = true ∧
    pizzaOrder.items.map OrderItemCreate.precio_unitario = [10] ∧
    ((get_orders_by_client_id
        (update_product_precio (create_order_with_items pizzaDb pizzaOrder).1 1 12) 1).map
      (fun p => p.items.map OrderItem.precio_unitario)) = [[some 12]] := by
  refine ⟨?_, by simp [pizzaOrder], ?_⟩
  · norm_num [create_order_with_items, pizzaDb, pizzaOrder, insertItems,
      DB.findProductoByNombre, resultOk, fabs]
  · norm_num [create_order_with_items, pizzaDb, pizzaOrder, insertItems,
      DB.findProductoByNombre, get_orders_by_client_id, update_product_precio,
      DB.detallesDePedido, List.insertionSort, List.orderedInsert, fabs]
    simp +decide [joinDetalleProducto]

end QuickBite

namespace QuickBite

/-- Claim C3 counterexample: a fully valid creation (1 x Pizza at 10.00,
total 10.00) succeeds, yet the persisted line-item row carries no unit price
at all — the INSERT lists only id_pedido, id_producto and cantidad_articulo,
so the supplied 10.00 is not among the persisted columns. -/
theorem C3_counterexample_price_not_persisted :
    resultOk (create_order_with_items pizzaDb pizzaOrder).2 = true ∧
    ((create_order_with_items pizzaDb pizzaOrder).1.tbl_detalles_venta.map
      (fun d => d.precio_unitario)) = [none] ∧
    pizzaOrder.items.map OrderItemCreate.precio_unitario = [10] := by
  refine ⟨?_, ?_, by simp [pizzaOrder]⟩ <;>
    norm_num [create_order_with_items, pizzaDb, pizzaOrder, insertItems,
      DB.findProductoByNombre, resultOk, fabs]

/-- Claim C3 as amended: for a valid input on a well-formed store, creation
succeeds and returns an order in pendiente_confirmacion with no courier whose
response items echo the supplied products, quantities and unit prices; the
persisted header is in pendiente_confirmacion with no courier, and the
persisted line items record the resolved product id and the quantity, while
the persisted unit price column is NULL (the supplied price exists only in
the response). -/
theorem C3_createOrder_valid_amended (db : DB) (od : PedidoCreate)
    (hwf : db.WF)
    (htot : fabs ((od.items.map fun i => (i.cantidad : ℚ) * i.precio_unitario).sum
      - od.total_pedido) ≤ 1/100)
    (hprod : ∀ i ∈ od.items, (db.findProductoByNombre i.nombre_producto).isSome) :
    ∃ db' p, create_order_with_items db od = (db', .ok p) ∧
      p.estado_pedido = ESTADO_PEDIDO_PENDIENTE_CONFIRMACION ∧
      p.id_repartidor = none ∧
      p.items.map (fun oi => (oi.nombre_producto, oi.cantidad, oi.precio_unitario)) =
        od.items.map (fun i => (some i.nombre_producto, some i.cantidad, some i.precio_unitario)) ∧
      db'.estadoDe p.id_pedido = some ESTADO_PEDIDO_PENDIENTE_CONFIRMACION ∧
      db'.repartidorDe p.id_pedido = none ∧
      (db'.detallesDePedido p.id_pedido).map
          (fun d => (some d.id_producto, d.cantidad_articulo, d.precio_unitario)) =
        od.items.map (fun i =>
          ((db.findProductoByNombre i.nombre_producto).map ProductoRow.id_producto,
            i.cantidad, (none : Option ℚ))) := by
  obtain ⟨db', p, hc, hid, hst, hrep, hitems, _, hfind, ⟨nuevos, _, hdet, hnone, hmap⟩⟩ :=
    create_order_ok_spec db od hwf htot hprod
  refine ⟨db', p, hc, hst, hrep, hitems, ?_, ?_, ?_⟩
  · rw [hid]
    simp [DB.estadoDe, hfind]
  · rw [hid]
    simp [DB.repartidorDe, hfind]
  · rw [hid, hdet]
    have h3 := congrArg
      (List.map (fun x : Option Nat × Nat => (x.1, x.2, (none : Option ℚ)))) hmap
    rw [List.map_map, List.map_map] at h3
    calc nuevos.map (fun d => (some d.id_producto, d.cantidad_articulo, d.precio_unitario))
        = nuevos.map (fun d => (some d.id_producto, d.cantidad_articulo, (none : Option ℚ))) :=
          List.map_congr_left (fun d hd => by rw [(hnone d hd).2])
      _ = _ := h3

/-- Claim C3 amended witness at the concrete valid input. -/
theorem C3_createOrder_valid_amended_witness :
    ∃ db' p, create_order_with_items pizzaDb pizzaOrder = (db', .ok p) ∧
      p.estado_pedido = ESTADO_PEDIDO_PENDIENTE_CONFIRMACION ∧
      p.id_repartidor = none ∧
      p.items.map (fun oi => (oi.nombre_producto, oi.cantidad, oi.precio_unitario)) =
        pizzaOrder.items.map (fun i =>
          (some i.nombre_producto, some i.cantidad, some i.precio_unitario)) ∧
      db'.estadoDe p.id_pedido = some ESTADO_PEDIDO_PENDIENTE_CONFIRMACION ∧
      db'.repartidorDe p.id_pedido = none ∧
      (db'.detallesDePedido p.id_pedido).map
          (fun d => (some d.id_producto, d.cantidad_articulo, d.precio_unitario)) =
        pizzaOrder.items.map (fun i =>
          ((pizzaDb.findProductoByNombre i.nombre_producto).map ProductoRow.id_producto,
            i.cantidad, (none : Option ℚ))) :=
  C3_createOrder_valid_amended pizzaDb pizzaOrder ⟨by decide, by decide, by decide⟩
    (by norm_num [pizzaOrder, fabs]) (by decide)

/-- Claim C5 as amended: on an order in a terminal state (entregado or
cancelado), a courier transition request succeeds exactly when the target is
in the courier-allowed set and the requester is the assigned courier — the
code checks only those two things and never the current state — and every
failing request leaves the store unchanged. -/
theorem C5_terminal_transition_amended (db : DB) (idp c : Nat) (t : String) (row : PedidoRow)
    (hrow : db.findPedido idp = some row)
    (hterm : row.estado_pedido = ESTADO_PEDIDO_ENTREGADO ∨
      row.estado_pedido = ESTADO_PEDIDO_CANCELADO) :
    (resultOk (update_estado_pedido_por_repartidor db idp c t).2 = true ↔
      (t ∈ estados_permitidos_repartidor ∧ row.id_repartidor = some c)) ∧
    (resultOk (update_estado_pedido_por_repartidor db idp c t).2 = false →
      (update_estado_pedido_por_repartidor db idp c t).1 = db) := by
  by_cases ht : t ∈ estados_permitidos_repartidor
  · by_cases hc : row.id_repartidor = some c
    · obtain ⟨heq, _⟩ := update_ok_spec db idp c t row ht hrow hc
      rw [heq]
      constructor
      · simp [resultOk, ht, hc]
      · intro hfalse
        simp [resultOk] at hfalse
    · have heq : update_estado_pedido_por_repartidor db idp c t =
          (db, .error .sinPermiso) := by
        simp only [update_estado_pedido_por_repartidor, if_neg (not_not_intro ht), hrow]
        rw [if_pos hc]
      rw [heq]
      exact ⟨by simp [resultOk, hc], fun _ => rfl⟩
  · have heq : update_estado_pedido_por_repartidor db idp c t =
        (db, .error .estadoNoPermitido) := by
      simp only [update_estado_pedido_por_repartidor, if_pos ht]
    rw [heq]
    exact ⟨by simp [resultOk, ht], fun _ => rfl⟩

/-- Claim C5 amended witness: on the delivered order assigned to courier 7, a
request by courier 7 targeting en_camino satisfies the success condition. -/
theorem C5_terminal_transition_amended_witness :
    (resultOk (update_estado_pedido_por_repartidor deliveredDb 1 7 ESTADO_PEDIDO_EN_CAMINO).2
        = true ↔
      (ESTADO_PEDIDO_EN_CAMINO ∈ estados_permitidos_repartidor ∧
        deliveredRow.id_repartidor = some 7)) ∧
    (resultOk (update_estado_pedido_por_repartidor deliveredDb 1 7 ESTADO_PEDIDO_EN_CAMINO).2
        = false →
      (update_estado_pedido_por_repartidor deliveredDb 1 7 ESTADO_PEDIDO_EN_CAMINO).1
        = deliveredDb) :=
  C5_terminal_transition_amended deliveredDb 1 7 ESTADO_PEDIDO_EN_CAMINO deliveredRow
    (by decide) (Or.inl (by decide))

/-- Claim C8 as amended: a requester who is not the assigned courier fails
with NotOwner for every target inside the courier-allowed set (en_camino,
entregado); for any other target the invalid-target rejection is issued
first, before ownership is even read.  Both failures leave the store
unchanged. -/
theorem C8_not_owner_amended (db : DB) (idp c : Nat) (t : String) (row : PedidoRow)
    (hrow : db.findPedido idp = some row)
    (hown : row.id_repartidor ≠ some c) :
    (t ∈ estados_permitidos_repartidor →
      update_estado_pedido_por_repartidor db idp c t = (db, .error .sinPermiso)) ∧
    (t ∉ estados_permitidos_repartidor →
      update_estado_pedido_por_repartidor db idp c t = (db, .error .estadoNoPermitido)) := by
  constructor
  · intro ht
    simp only [update_estado_pedido_por_repartidor, if_neg (not_not_intro ht), hrow]
    rw [if_pos hown]
  · intro ht
    simp only [update_estado_pedido_por_repartidor, if_pos ht]

/-- Claim C8 amended witness: courier 9 on the order assigned to courier 7. -/
theorem C8_not_owner_amended_witness :
    (ESTADO_PEDIDO_EN_CAMINO ∈ estados_permitidos_repartidor →
      update_estado_pedido_por_repartidor deliveredDb 1 9 ESTADO_PEDIDO_EN_CAMINO
        = (deliveredDb, .error .sinPermiso)) ∧
    (ESTADO_PEDIDO_EN_CAMINO ∉ estados_permitidos_repartidor →
      update_estado_pedido_por_repartidor deliveredDb 1 9 ESTADO_PEDIDO_EN_CAMINO
        = (deliveredDb, .error .estadoNoPermitido)) :=
  C8_not_owner_amended deliveredDb 1 9 ESTADO_PEDIDO_EN_CAMINO deliveredRow
    (by decide) (by decide)

end QuickBite

namespace QuickBite

/-- Claim C6 as amended: a single core operation changes the persisted state
of an order only in one of two ways — a claim takes a listo_para_recoger
order with no courier to recogido_por_repartidor while assigning the claiming
courier, or a courier update takes an order assigned to the requesting
courier to en_camino or entregado.  No other state constraint exists, so
forward-only progression is not enforced (see the counterexample). -/
theorem C6_state_change_characterization (db : DB) (op : Op) (idp : Nat)
    (before after : PedidoRow)
    (hb : db.findPedido idp = some before)
    (ha : (applyOp db op).findPedido idp = some after)
    (hch : after.estado_pedido ≠ before.estado_pedido) :
    (∃ c, op = .claim idp c ∧
      before.estado_pedido = ESTADO_PEDIDO_LISTO_PARA_RECOGER ∧
      before.id_repartidor = none ∧
      after = { before with estado_pedido := ESTADO_PEDIDO_RECOGIDO_POR_REPARTIDOR, id_repartidor := some c }) ∨
    (∃ c t, op = .updateEstado idp c t ∧
      before.id_repartidor = some c ∧
      t ∈ estados_permitidos_repartidor ∧
      after = { before with estado_pedido := t }) := by
  have hidb : before.id_pedido = idp := by simpa using List.find?_some hb
  cases op with
  | createOrder od =>
    exfalso
    have hmono : ∃ tail, ((create_order_with_items db od).1).tbl_pedido
        = db.tbl_pedido ++ tail := by
      simp only [create_order_with_items]
      split
      · exact ⟨[], by simp⟩
      split
      · exact ⟨[], by simp⟩
      next dbr oisr hr =>
        exact ⟨_, (insertItems_ok_spec od.items _ _ _ _ hr).2.1⟩
    obtain ⟨tail, htail⟩ := hmono
    have hsame : (applyOp db (Op.createOrder od)).findPedido idp = some before := by
      show ((create_order_with_items db od).1).tbl_pedido.find? _ = _
      rw [htail]
      exact find?_append_of_some hb
    rw [hsame] at ha
    exact hch (Option.some.inj ha ▸ rfl)
  | claim p c =>
    simp only [applyOp] at ha
    cases hcc : claimCheck db p c with
    | some e =>
      exfalso
      have hres : (asignar_pedido_a_repartidor db p c).1 = db := by
        simp [asignar_pedido_a_repartidor, hcc]
      rw [hres, hb] at ha
      exact hch (Option.some.inj ha ▸ rfl)
    | none =>
      cases hfw : (claimWrite db p c).findPedido p with
      | none =>
        exfalso
        have hres : (asignar_pedido_a_repartidor db p c).1 = db := by
          simp only [asignar_pedido_a_repartidor, hcc]
          rw [show ((claimWrite db p c).findPedido p) = none from hfw]
        rw [hres, hb] at ha
        exact hch (Option.some.inj ha ▸ rfl)
      | some row =>
        have hres : (asignar_pedido_a_repartidor db p c).1 = claimWrite db p c := by
          simp only [asignar_pedido_a_repartidor, hcc]
          rw [show ((claimWrite db p c).findPedido p) = some row from hfw]
        rw [hres] at ha
        have hmapped : (claimWrite db p c).findPedido idp =
            some (if (before.id_pedido == p) = true
              then { before with id_repartidor := some c, estado_pedido := ESTADO_PEDIDO_RECOGIDO_POR_REPARTIDOR }
              else before) := by
          show (db.tbl_pedido.map _).find? _ = _
          rw [find?_map_invariant _ _ _
            (fun a => by by_cases h1 : a.id_pedido = p <;> simp [h1])]
          rw [show db.tbl_pedido.find? (fun r => r.id_pedido == idp) = some before from hb]
          rfl
        rw [hmapped] at ha
        have hafter := (Option.some.inj ha).symm
        by_cases hpe : (before.id_pedido == p) = true
        · have hpidp : p = idp := by
            rw [← beq_iff_eq.mp hpe, hidb]
          subst hpidp
          rw [if_pos hpe] at hafter
          simp only [claimCheck, hb] at hcc
          split at hcc
          next r hnone =>
            split at hcc <;> exact absurd hcc (by simp)
          next hnone =>
            split at hcc
            · exact absurd hcc (by simp)
            next hst =>
              exact Or.inl ⟨c, rfl, not_not.mp hst, hnone, hafter⟩
        · exfalso
          rw [if_neg hpe] at hafter
          exact hch (hafter ▸ rfl)
  | updateEstado p c t =>
    simp only [applyOp] at ha
    by_cases ht : t ∈ estados_permitidos_repartidor
    · cases hpf : db.findPedido p with
      | none =>
        exfalso
        have hres : (update_estado_pedido_por_repartidor db p c t).1 = db := by
          simp [update_estado_pedido_por_repartidor, if_neg (not_not_intro ht), hpf]
        rw [hres, hb] at ha
        exact hch (Option.some.inj ha ▸ rfl)
      | some pa =>
        by_cases hpc : pa.id_repartidor = some c
        · cases hfs : (db.tbl_pedido.map (fun r =>
              if r.id_pedido == p && r.id_repartidor == some c
              then { r with estado_pedido := t } else r)).find? (fun r =>
                r.id_pedido == p && r.id_repartidor == some c) with
          | none =>
            exfalso
            have hres : (update_estado_pedido_por_repartidor db p c t).1 = db := by
              simp only [update_estado_pedido_por_repartidor,
                if_neg (not_not_intro ht), hpf, if_neg (not_not_intro hpc)]
              rw [hfs]
            rw [hres, hb] at ha
            exact hch (Option.some.inj ha ▸ rfl)
          | some row2 =>
            have hres : (update_estado_pedido_por_repartidor db p c t).1 =
                { db with tbl_pedido := db.tbl_pedido.map (fun r =>
                    if r.id_pedido == p && r.id_repartidor == some c
                    then { r with estado_pedido := t } else r) } := by
              simp only [update_estado_pedido_por_repartidor,
                if_neg (not_not_intro ht), hpf, if_neg (not_not_intro hpc)]
              rw [hfs]
            rw [hres] at ha
            have hmapped : ({ db with tbl_pedido := db.tbl_pedido.map (fun r =>
                if r.id_pedido == p && r.id_repartidor == some c
                then { r with estado_pedido := t } else r) } : DB).findPedido idp =
                some (if (before.id_pedido == p && before.id_repartidor == some c) = true
                  then { before with estado_pedido := t }
                  else before) := by
              show (db.tbl_pedido.map _).find? _ = _
              rw [find?_map_invariant _ _ _
                (fun a => by
                  by_cases h1 : a.id_pedido = p <;>
                    by_cases h2 : a.id_repartidor = some c <;> simp [h1, h2])]
              rw [show db.tbl_pedido.find? (fun r => r.id_pedido == idp) = some before from hb]
              rfl
            rw [hmapped] at ha
            have hafter := (Option.some.inj ha).symm
            by_cases hpe : (before.id_pedido == p) = true
            · have hpidp : p = idp := by
                rw [← beq_iff_eq.mp hpe, hidb]
              subst hpidp
              have hpab : pa = before := by
                rw [hb] at hpf
                exact (Option.some.inj hpf).symm
              subst hpab
              rw [if_pos (by simp [hpe, hpc])] at hafter
              exact Or.inr ⟨c, t, rfl, hpc, ht, hafter⟩
            · exfalso
              rw [if_neg (by simp [hpe])] at hafter
              exact hch (hafter ▸ rfl)
        · exfalso
          have hres : (update_estado_pedido_por_repartidor db p c t).1 = db := by
            simp only [update_estado_pedido_por_repartidor,
              if_neg (not_not_intro ht), hpf]
            rw [if_pos hpc]
          rw [hres, hb] at ha
          exact hch (Option.some.inj ha ▸ rfl)
    · exfalso
      have hres : (update_estado_pedido_por_repartidor db p c t).1 = db := by
        simp [update_estado_pedido_por_repartidor, if_pos ht]
      rw [hres, hb] at ha
      exact hch (Option.some.inj ha ▸ rfl)

end QuickBite

namespace QuickBite

/-- Claim C6 amended witness: the claim step on the unclaimed
listo_para_recoger order is classified by the characterization. -/
theorem C6_state_change_characterization_witness :
    (∃ c, Op.claim 1 7 = Op.claim 1 c ∧
      raceRow.estado_pedido = ESTADO_PEDIDO_LISTO_PARA_RECOGER ∧
      raceRow.id_repartidor = none ∧
      claimedRaceRow = { raceRow with estado_pedido := ESTADO_PEDIDO_RECOGIDO_POR_REPARTIDOR, id_repartidor := some c }) ∨
    (∃ c t, Op.claim 1 7 = Op.updateEstado 1 c t ∧
      raceRow.id_repartidor = some c ∧
      t ∈ estados_permitidos_repartidor ∧
      claimedRaceRow = { raceRow with estado_pedido := t }) :=
  C6_state_change_characterization raceDb (.claim 1 7) 1 raceRow claimedRaceRow
    (by decide) (by decide) (by decide)

/-- Claim C9 counterexample: the full round trip — create 2 x Pizza at 10.00,
restaurant marks the order listo_para_recoger, courier 7 claims it, sets
en_camino, then entregado — ends delivered and still assigned to courier 7,
but the returned line items are (product 1, quantity NULL, price NULL): the
final read selects the legacy columns cantidad and precio_unitario that
creation never writes, so the created quantity 2 and unit price 10.00 are not
retained. -/
theorem C9_counterexample_items_lost :
    (update_estado_pedido_por_repartidor
        (update_estado_pedido_por_repartidor
          (asignar_pedido_a_repartidor
            (setEstadoPedido (create_order_with_items pizzaDb doubleOrder).1 1
              ESTADO_PEDIDO_LISTO_PARA_RECOGER)
            1 7).1
          1 7 ESTADO_PEDIDO_EN_CAMINO).1
        1 7 ESTADO_PEDIDO_ENTREGADO).2.map
      (fun q => (q.estado_pedido, q.id_repartidor,
        q.items.map (fun oi => (oi.product_id, oi.quantity, oi.price)))) =
      .ok (ESTADO_PEDIDO_ENTREGADO, some 7, [(some 1, none, none)]) ∧
    doubleOrder.items.map (fun i => (i.cantidad, i.precio_unitario)) = [(2, 10)] := by
  constructor
  · norm_num [create_order_with_items, pizzaDb, doubleOrder, insertItems,
      DB.findProductoByNombre, setEstadoPedido, fabs]
    simp +decide [asignar_pedido_a_repartidor, claimCheck, claimWrite, DB.findPedido,
      update_estado_pedido_por_repartidor, estados_permitidos_repartidor,
      DB.detallesDePedido, detalleToCourierItem]
    rfl
  · simp [doubleOrder]

/-- Claim C9 as amended: an order created from a valid input, marked ready by
the restaurant, claimed by courier c, then advanced to en_camino and
entregado, ends in state entregado with assigned courier still c, and the
final response items correspond one to one, by product id, to the creation
input; the quantities and unit prices, however, come back NULL, because the
final read selects the legacy detalle columns that creation never writes. -/
theorem C9_round_trip_amended (db : DB) (od : PedidoCreate) (c : Nat)
    (hwf : db.WF)
    (htot : fabs ((od.items.map fun i => (i.cantidad : ℚ) * i.precio_unitario).sum
      - od.total_pedido) ≤ 1/100)
    (hprod : ∀ i ∈ od.items, (db.findProductoByNombre i.nombre_producto).isSome) :
    ∃ dbC p, create_order_with_items db od = (dbC, .ok p) ∧
      ∃ q,
        (update_estado_pedido_por_repartidor
          (update_estado_pedido_por_repartidor
            (asignar_pedido_a_repartidor
              (setEstadoPedido dbC p.id_pedido ESTADO_PEDIDO_LISTO_PARA_RECOGER)
              p.id_pedido c).1
            p.id_pedido c ESTADO_PEDIDO_EN_CAMINO).1
          p.id_pedido c ESTADO_PEDIDO_ENTREGADO).2 = .ok q ∧
        q.estado_pedido = ESTADO_PEDIDO_ENTREGADO ∧
        q.id_repartidor = some c ∧
        (update_estado_pedido_por_repartidor
          (update_estado_pedido_por_repartidor
            (asignar_pedido_a_repartidor
              (setEstadoPedido dbC p.id_pedido ESTADO_PEDIDO_LISTO_PARA_RECOGER)
              p.id_pedido c).1
            p.id_pedido c ESTADO_PEDIDO_EN_CAMINO).1
          p.id_pedido c ESTADO_PEDIDO_ENTREGADO).1.estadoDe p.id_pedido
          = some ESTADO_PEDIDO_ENTREGADO ∧
        q.items.map OrderItem.product_id =
          od.items.map (fun i =>
            (db.findProductoByNombre i.nombre_producto).map ProductoRow.id_producto) ∧
        q.items.map (fun oi => (oi.quantity, oi.price)) =
          od.items.map (fun _ => ((none : Option Nat), (none : Option ℚ))) := by
  obtain ⟨dbC, p, hc, hid, _, _, _, _, hfind, ⟨nuevos, _, hdet, hnone, hmap⟩⟩ :=
    create_order_ok_spec db od hwf htot hprod
  refine ⟨dbC, p, hc, ?_⟩
  rw [hid]
  have hmemEC : ESTADO_PEDIDO_EN_CAMINO ∈ estados_permitidos_repartidor := by
    simp [estados_permitidos_repartidor]
  have hmemEN : ESTADO_PEDIDO_ENTREGADO ∈ estados_permitidos_repartidor := by
    simp [estados_permitidos_repartidor]
  have hfind2 := setEstadoPedido_findPedido dbC db.next_id_pedido
    ESTADO_PEDIDO_LISTO_PARA_RECOGER _ hfind
  obtain ⟨hasig, hfind3⟩ := asignar_ok_spec
    (setEstadoPedido dbC db.next_id_pedido ESTADO_PEDIDO_LISTO_PARA_RECOGER)
    db.next_id_pedido c _ hfind2 rfl rfl
  obtain ⟨hupd1, hfind4⟩ := update_ok_spec _ db.next_id_pedido c
    ESTADO_PEDIDO_EN_CAMINO _ hmemEC hfind3 rfl
  obtain ⟨hupd2, hfind5⟩ := update_ok_spec _ db.next_id_pedido c
    ESTADO_PEDIDO_ENTREGADO _ hmemEN hfind4 rfl
  have hstep1 : (asignar_pedido_a_repartidor
      (setEstadoPedido dbC db.next_id_pedido ESTADO_PEDIDO_LISTO_PARA_RECOGER)
      db.next_id_pedido c).1 =
      claimWrite (setEstadoPedido dbC db.next_id_pedido ESTADO_PEDIDO_LISTO_PARA_RECOGER)
        db.next_id_pedido c := by
    rw [hasig]
  rw [hstep1]
  have h1db : ((update_estado_pedido_por_repartidor
      (claimWrite (setEstadoPedido dbC db.next_id_pedido ESTADO_PEDIDO_LISTO_PARA_RECOGER)
        db.next_id_pedido c)
      db.next_id_pedido c ESTADO_PEDIDO_EN_CAMINO).1).detallesDePedido db.next_id_pedido
      = nuevos := by
    rw [hupd1]
    exact hdet
  refine ⟨_, by rw [hupd2], rfl, rfl, ?_, ?_, ?_⟩
  · simp only [DB.estadoDe]
    rw [hfind5]
    rfl
  · show (((update_estado_pedido_por_repartidor _ _ _ _).1.detallesDePedido
        db.next_id_pedido).map detalleToCourierItem).map OrderItem.product_id = _
    rw [h1db, List.map_map]
    have h1 := congrArg (List.map Prod.fst) hmap
    rw [List.map_map, List.map_map] at h1
    exact h1
  · show (((update_estado_pedido_por_repartidor _ _ _ _).1.detallesDePedido
        db.next_id_pedido).map detalleToCourierItem).map (fun oi => (oi.quantity, oi.price))
      = _
    rw [h1db, List.map_map]
    have hlen : nuevos.length = od.items.length := by
      have := congrArg List.length hmap
      simpa using this
    calc nuevos.map ((fun oi => (oi.quantity, oi.price)) ∘ detalleToCourierItem)
        = nuevos.map (fun _ => ((none : Option Nat), (none : Option ℚ))) :=
          List.map_congr_left (fun d hd => by
            simp [detalleToCourierItem, (hnone d hd).1, (hnone d hd).2])
      _ = List.replicate nuevos.length ((none : Option Nat), (none : Option ℚ)) :=
          List.map_const nuevos _
      _ = List.replicate od.items.length ((none : Option Nat), (none : Option ℚ)) := by
          rw [hlen]
      _ = od.items.map (fun _ => ((none : Option Nat), (none : Option ℚ))) :=
          (List.map_const od.items _).symm

end QuickBite

namespace QuickBite

/-- Claim C2 witness: the mismatch input (items 2 x 10.00 against a declared
total of 25.00) is rejected with the validation error and the store is
returned unchanged. -/
theorem C2_createOrder_failure_is_atomic_witness :
    create_order_with_items pizzaDb mismatchOrder = (pizzaDb, .error .totalMismatch) :=
  (C2_createOrder_failure_is_atomic pizzaDb mismatchOrder).1
    (by norm_num [mismatchOrder, fabs])

/-- Claim C7 witness: courier 7 re-claiming the order already assigned to
courier 7 receives the distinguishing already-yours error, store unchanged. -/
theorem C7_claim_failure_modes_witness :
    asignar_pedido_a_repartidor deliveredDb 1 7 = (deliveredDb, .error .yaTienesEstePedido) :=
  ((C7_claim_failure_modes deliveredDb 1 7).2 deliveredRow (by decide)).1 (by decide)

/-- Claim C9 amended witness: the round trip at the concrete input. -/
theorem C9_round_trip_amended_witness :
    ∃ dbC p, create_order_with_items pizzaDb doubleOrder = (dbC, .ok p) ∧
      ∃ q,
        (update_estado_pedido_por_repartidor
          (update_estado_pedido_por_repartidor
            (asignar_pedido_a_repartidor
              (setEstadoPedido dbC p.id_pedido ESTADO_PEDIDO_LISTO_PARA_RECOGER)
              p.id_pedido 7).1
            p.id_pedido 7 ESTADO_PEDIDO_EN_CAMINO).1
          p.id_pedido 7 ESTADO_PEDIDO_ENTREGADO).2 = .ok q ∧
        q.estado_pedido = ESTADO_PEDIDO_ENTREGADO ∧
        q.id_repartidor = some 7 ∧
        (update_estado_pedido_por_repartidor
          (update_estado_pedido_por_repartidor
            (asignar_pedido_a_repartidor
              (setEstadoPedido dbC p.id_pedido ESTADO_PEDIDO_LISTO_PARA_RECOGER)
              p.id_pedido 7).1
            p.id_pedido 7 ESTADO_PEDIDO_EN_CAMINO).1
          p.id_pedido 7 ESTADO_PEDIDO_ENTREGADO).1.estadoDe p.id_pedido
          = some ESTADO_PEDIDO_ENTREGADO ∧
        q.items.map OrderItem.product_id =
          doubleOrder.items.map (fun i =>
            (pizzaDb.findProductoByNombre i.nombre_producto).map ProductoRow.id_producto) ∧
        q.items.map (fun oi => (oi.quantity, oi.price)) =
          doubleOrder.items.map (fun _ => ((none : Option Nat), (none : Option ℚ))) :=
  C9_round_trip_amended pizzaDb doubleOrder 7 ⟨by decide, by decide, by decide⟩
    (by norm_num [doubleOrder, fabs]) (by decide)

/-- Claim C10 witness: the frame property at the concrete successful update
taking the claimed order of courier 7 to en_camino. -/
theorem C10_update_estado_frame_witness :
    enCaminoDb.tbl_producto = claimedDb.tbl_producto ∧
    enCaminoDb.tbl_detalles_venta = claimedDb.tbl_detalles_venta ∧
    enCaminoDb.next_id_pedido = claimedDb.next_id_pedido ∧
    enCaminoDb.next_id_detalle_venta = claimedDb.next_id_detalle_venta ∧
    enCaminoDb.now = claimedDb.now ∧
    enCaminoDb.tbl_pedido.map (fun r => (r.id_pedido, r.id_cliente, r.id_restaurante,
        r.total_pedido, r.fecha_pedido, r.id_repartidor, r.metodo_pago, r.direccion_entrega))
      = claimedDb.tbl_pedido.map (fun r => (r.id_pedido, r.id_cliente, r.id_restaurante,
        r.total_pedido, r.fecha_pedido, r.id_repartidor, r.metodo_pago, r.direccion_entrega)) ∧
    (∀ r ∈ claimedDb.tbl_pedido, r.id_pedido ≠ 1 → r ∈ enCaminoDb.tbl_pedido) ∧
    enCaminoDb.estadoDe 1 = some ESTADO_PEDIDO_EN_CAMINO :=
  C10_update_estado_frame claimedDb 1 7 ESTADO_PEDIDO_EN_CAMINO enCaminoDb enCaminoPedido
    (by decide)

end QuickBite
